import Mathlib

/-!
Verification of the exo_pool cloud-polling bridge
(`custom_components/exo_pool/api.py`).

The write/read coordination engine is embedded shallowly:

* monotonic time is modelled as `ℚ` and passed explicitly (`now`);
* the per-entry mutable store dictionary (`hass.data[DOMAIN][entry_id]`)
  becomes the record `EntryStore`; missing keys are the record defaults
  (matching `store.get(key, default)` in the source);
* JSON documents (the device shadow and write payloads) become the
  inductive `JVal`, with Python-dict semantics given by association-list
  operations that update in place and append new keys at the end;
* randomness (`random.uniform`) and HTTP responses are explicit
  parameters of the functions that consume them;
* `asyncio` futures are identified by numeric ids; resolving a group of
  futures is modelled as the list of (id, outcome) pairs produced by a
  worker iteration.
-/

/-! ## Constants (from api.py module header) -/

def REFRESH_DEFAULT : Int := 600
def REFRESH_MIN : Int := 300
def REFRESH_MAX : Int := 3600
def BOOST_INTERVAL : Int := 10
def MIN_REQUEST_INTERVAL : ℚ := 5
def DEBOUNCED_REFRESH_DELAY : ℚ := 30
def WRITE_GAP_SECONDS : ℚ := 8
def POST_WRITE_COOLDOWN_SECONDS : ℚ := 45
def NO_READ_WINDOW_SECONDS : ℚ := 30
def MIN_REFRESH_GUARD_SECONDS : ℚ := 120
def SCHEDULE_REFRESH_DELAY : ℚ := 180
def READ_DEFERRAL_JITTER_MIN : ℚ := 15
def READ_DEFERRAL_JITTER_MAX : ℚ := 45
def DEBOUNCE_JITTER_MIN : ℚ := 30
def DEBOUNCE_JITTER_MAX : ℚ := 90

/-! ## JSON values

Device-shadow snapshots and write payloads are nested JSON objects.
Python dicts are modelled as association lists with in-place update
(`assocSet` keeps the position of an existing key and appends a new
key at the end, like CPython dict insertion order). -/

inductive JVal where
  | num (n : Int)
  | str (s : String)
  | bool (b : Bool)
  | obj (fields : List (String × JVal))
deriving Repr

/-- Python truthiness of a JSON value (`if coordinator.data:` etc.). -/
def JVal.truthy : JVal → Bool
  | .num n => n != 0
  | .str s => !s.isEmpty
  | .bool b => b
  | .obj fs => !fs.isEmpty

/-- Source `d.get(k)` on an association-list object. -/
def assocGet (fs : List (String × JVal)) (k : String) : Option JVal :=
  match fs with
  | [] => none
  | (k0, v0) :: rest => if k0 = k then some v0 else assocGet rest k

/-- Source `d[k] = v` on an association-list object: replace in place, or append. -/
def assocSet (fs : List (String × JVal)) (k : String) (v : JVal) :
    List (String × JVal) :=
  match fs with
  | [] => [(k, v)]
  | (k0, v0) :: rest =>
      if k0 = k then (k0, v) :: rest else (k0, v0) :: assocSet rest k v

/-- Read a nested path in a JSON object (used to observe the cache). -/
def getPath : JVal → List String → Option JVal
  | v, [] => some v
  | .obj fs, k :: rest =>
      match assocGet fs k with
      | some child => getPath child rest
      | none => none
  | _, _ :: _ => none

/-- Source `coordinator.data or {}`: the cached snapshot, or an empty object when
the coordinator has no (truthy) data yet. -/
def dataOrEmpty (cdata : Option JVal) : JVal :=
  match cdata with
  | some d => if d.truthy then d else .obj []
  | none => .obj []

/-! ## The per-entry store (`_get_entry_store`) -/

/-- The mutable per-entry dictionary `hass.data[DOMAIN][entry_id]`.
Field defaults are the `store.get(key, default)` fallbacks of the source.
Keys held as `Option` model "key absent" (`store.get(k)` returning
`None`), which the source distinguishes from a stored value by Python
truthiness. -/
structure EntryStore where
  cooldown_until : ℚ := 0
  write_in_flight : Int := 0
  write_quiet_until : ℚ := 0
  no_read_until : Option ℚ := none
  refresh_deadline : Option ℚ := none
  last_success_fetch_ts : Option ℚ := none
deriving Repr

/-- Source `_is_write_active(store)`. -/
def is_write_active (s : EntryStore) (now : ℚ) : Bool :=
  s.write_in_flight > 0 || now < s.write_quiet_until

/-- Source `_cooldown_remaining(hass, entry)`. -/
def cooldown_remaining (s : EntryStore) (now : ℚ) : ℚ :=
  max 0 (s.cooldown_until - now)

/-- Source `_set_cooldown(hass, entry, seconds, reason=...)`:
`store["cooldown_until"] = max(_get_cooldown_until(store), now + seconds)`. -/
def set_cooldown (s : EntryStore) (now seconds : ℚ) : EntryStore :=
  { s with cooldown_until := max s.cooldown_until (now + seconds) }

/-- Truthy check of `store.get("no_read_until")` combined with
`time.monotonic() < no_read_until` (first deferral guard of
`async_update_data` and of `_should_defer_refresh`). -/
def no_read_active (s : EntryStore) (now : ℚ) : Bool :=
  match s.no_read_until with
  | some t => t != 0 && now < t
  | none => false

/-! ## Debounced refresh scheduler (`_schedule_debounced_refresh`) -/

/-- The deadline computed by `_schedule_debounced_refresh`:
`target = max(now + delay, cooldown_until) + jitter`, then clamped up to
`now` if it fell at or below `now`. -/
def debounce_target (s : EntryStore) (now delay jitter : ℚ) : ℚ :=
  let target := max (now + delay) s.cooldown_until + jitter
  if target ≤ now then now else target

/-- Source `_schedule_debounced_refresh(hass, entry, delay=...)`, with the random
jitter passed explicitly.  If a (truthy) `refresh_deadline` at or past the
target already exists the call is a no-op; otherwise any existing task is
cancelled and replaced, leaving the single scheduled deadline at `target`. -/
def schedule_debounced_refresh (s : EntryStore) (now delay jitter : ℚ) :
    EntryStore :=
  let target := debounce_target s now delay jitter
  match s.refresh_deadline with
  | some existing =>
      if existing != 0 && existing ≥ target then s
      else { s with refresh_deadline := some target }
  | none => { s with refresh_deadline := some target }

/-! ## Write manager (`_merge_dict`, `_WriteItem`, `_WriteManager`) -/

/-- Source `_merge_dict(base, update)`: shallow copy of `base`, then for each
`(key, value)` of `update`, deep-merge when both sides hold dicts,
otherwise replace.  Only ever called with two dict arguments in the
source (schedule payloads); on non-dict arguments Python would raise, so
those cases are left as the update value. -/
def merge_dict : JVal → JVal → JVal
  | .obj bs, .obj us => .obj (merge_dict.go bs us)
  | _, u => u
where
  go (bs : List (String × JVal)) : List (String × JVal) → List (String × JVal)
  | [] => bs
  | (k, v) :: rest =>
      let bs2 :=
        match v, assocGet bs k with
        | .obj vs, some (.obj ms) => assocSet bs k (.obj (go ms vs))
        | .obj vs, _ => assocSet bs k (.obj vs)
        | v, _ => assocSet bs k v
      go bs2 rest

/-- Source `_WriteItem`: a pending coalesced write.  Futures are numeric ids. -/
structure WriteItem where
  kind : String
  key : String
  target : String
  payload : JVal
  futures : List Nat := []
  merge_func : Option (JVal → JVal → JVal) := none
  extra_delay : ℚ := 0

/-- The queue state of `_WriteManager`: the `_pending` dict (an
association list keyed by coalescing key) and the `_order` list. -/
structure WMState where
  pending : List (String × WriteItem) := []
  order : List String := []

/-- Source `d.get(k)` on the pending dict. -/
def wmGet (p : List (String × WriteItem)) (k : String) : Option WriteItem :=
  match p with
  | [] => none
  | (k0, v0) :: rest => if k0 = k then some v0 else wmGet rest k

/-- Source `d[k] = v` on the pending dict. -/
def wmSet (p : List (String × WriteItem)) (k : String) (v : WriteItem) :
    List (String × WriteItem) :=
  match p with
  | [] => [(k, v)]
  | (k0, v0) :: rest =>
      if k0 = k then (k0, v) :: rest else (k0, v0) :: wmSet rest k v

/-- Source `_WriteManager.enqueue(item)` (the part under the lock): stamp
`no_read_until`, then either merge into the pending item with the same
key — payload via the existing item's `merge_func` if set, else replaced;
`extra_delay` maxed; futures appended — or insert the item as a new queue
tail. -/
def WMState.enqueue (wm : WMState) (store : EntryStore) (now : ℚ)
    (item : WriteItem) : WMState × EntryStore :=
  let store := { store with no_read_until := some (now + NO_READ_WINDOW_SECONDS) }
  match wmGet wm.pending item.key with
  | some existing =>
      let newPayload :=
        match existing.merge_func with
        | some f => f existing.payload item.payload
        | none => item.payload
      let merged :=
        { existing with
            payload := newPayload
            extra_delay := max existing.extra_delay item.extra_delay
            futures := existing.futures ++ item.futures }
      ({ wm with pending := wmSet wm.pending item.key merged }, store)
  | none =>
      ({ wm with
          pending := wmSet wm.pending item.key item
          order := wm.order ++ [item.key] }, store)

/-- A sequence of `enqueue` calls, each at its own monotonic time. -/
def WMState.enqueueAll (wm : WMState) (store : EntryStore)
    (items : List (ℚ × WriteItem)) : WMState × EntryStore :=
  match items with
  | [] => (wm, store)
  | (now, item) :: rest =>
      let (wm2, store2) := wm.enqueue store now item
      wm2.enqueueAll store2 rest

/-- Outcome delivered to one caller's future. -/
inductive FutureRes where
  | success
  | failure (msg : String)
deriving Repr, DecidableEq

/-- The future resolutions performed by one `_WriteManager._worker`
iteration for the dequeued item: on an `_execute_write` exception every
future gets that error, otherwise every future gets `None` (success). -/
def worker_resolve (item : WriteItem) (res : Except String Unit) :
    List (Nat × FutureRes) :=
  match res with
  | .error err => item.futures.map (fun f => (f, FutureRes.failure err))
  | .ok _ => item.futures.map (fun f => (f, FutureRes.success))

/-- The JSON body `_execute_write` posts for an item, by kind:
`{"state": {"desired": ...}}` with the kind-specific nesting. -/
def execute_write_payload (item : WriteItem) : Option JVal :=
  if item.kind = "pool" then
    some (.obj [("state", .obj [("desired", .obj
      [("equipment", .obj [("swc_0", item.payload)])])])])
  else if item.kind = "heating" then
    some (.obj [("state", .obj [("desired", .obj
      [("heating", .obj [(item.target, item.payload)])])])])
  else if item.kind = "schedule" then
    some (.obj [("state", .obj [("desired", .obj
      [("schedules", .obj [(item.target, item.payload)])])])])
  else none

/-! ## Fetch / update pipeline (`async_update_data`) -/

/-- What one invocation of the update method hands back to the polling
coordinator: a returned snapshot, or a raised `UpdateFailed`. -/
inductive FetchOutcome where
  | ret (data : JVal)
  | raiseUpdateFailed (msg : String)
deriving Repr

/-- The HTTP response of `GET /devices/v1/{serial}/shadow`, with the two
substring tests of the source precomputed as flags. -/
structure HttpResp where
  status : Nat
  bodyTooMany : Bool := false
  body : String := ""
  reported : JVal := .obj []

/-- The state `async_update_data` reads and writes: the entry store, the
coordinator's cached data and poll interval (whole seconds), the
configured interval (already clamped by
`_get_configured_interval_seconds`), and whether a boost task is live. -/
structure FetchState where
  store : EntryStore
  cdata : Option JVal := none
  update_interval : Int := REFRESH_DEFAULT
  configured : Int := REFRESH_DEFAULT
  boost_task : Bool := false

/-- Per-invocation environment: the clock, the two `random.uniform`
draws, and the HTTP response the network would deliver. -/
structure FetchEnv where
  now : ℚ
  defer_jitter : ℚ := READ_DEFERRAL_JITTER_MIN
  debounce_jitter : ℚ := DEBOUNCE_JITTER_MIN
  resp : HttpResp

structure FetchResult where
  outcome : FetchOutcome
  state : FetchState
  network_called : Bool

/-- Truthiness of `coordinator.data`. -/
def cdata_truthy (cdata : Option JVal) : Bool :=
  (cdata.map JVal.truthy).getD false

/-- The part of `async_update_data` past the deferral guards: the
token-refresh step (assumed to succeed — the claims under verification
do not touch it) and the rate-limited GET happen, and the response is
classified exactly as in the source: 200 → return the `state.reported`
object, stamp `last_success_fetch_ts`, restore a backed-off interval;
429/"Too Many Requests" → backoff and return cached data; other non-200
→ raise `UpdateFailed`.  The coordinator object is always present here:
`get_coordinator` stores it before the first refresh runs this method. -/
def fetch_classify (env : FetchEnv) (st : FetchState) : FetchResult :=
    let resp := env.resp
    if resp.status ≠ 200 then
      if resp.status == 429 || resp.bodyTooMany then
        let cur_s := st.update_interval
        let adjusted :=
          if cdata_truthy st.cdata then
            let new_s := max cur_s (min (cur_s * 2) REFRESH_MAX)
            if new_s ≠ cur_s then
              (new_s, set_cooldown st.store env.now (new_s : ℚ))
            else (cur_s, st.store)
          else
            let retry_s := max 60 (min st.configured REFRESH_MAX)
            if retry_s ≠ cur_s then
              (retry_s, set_cooldown st.store env.now (retry_s : ℚ))
            else (cur_s, st.store)
        let store3 := set_cooldown adjusted.2 env.now (adjusted.1 : ℚ)
        { outcome := .ret (dataOrEmpty st.cdata)
          state := { st with store := store3, update_interval := adjusted.1 }
          network_called := true }
      else
        { outcome := .raiseUpdateFailed ("Device data fetch failed: " ++ resp.body)
          state := st
          network_called := true }
    else
      let store2 := { st.store with last_success_fetch_ts := some env.now }
      let interval2 :=
        if st.update_interval > st.configured && !st.boost_task then
          st.configured
        else st.update_interval
      { outcome := .ret resp.reported
        state := { st with store := store2, update_interval := interval2 }
        network_called := true }

/-- Source `async_update_data(hass, entry)`: the three deferral guards, each
returning the cached snapshot and scheduling a debounced refresh without
touching the network, then the fetch itself (`fetch_classify`). -/
def async_update_data (env : FetchEnv) (st : FetchState) : FetchResult :=
  if no_read_active st.store env.now then
    { outcome := .ret (dataOrEmpty st.cdata)
      state := { st with
        store := schedule_debounced_refresh st.store env.now 0 env.debounce_jitter }
      network_called := false }
  else if is_write_active st.store env.now then
    { outcome := .ret (dataOrEmpty st.cdata)
      state := { st with
        store := schedule_debounced_refresh st.store env.now env.defer_jitter
          env.debounce_jitter }
      network_called := false }
  else if cooldown_remaining st.store env.now > 0 then
    { outcome := .ret (dataOrEmpty st.cdata)
      state := { st with
        store := schedule_debounced_refresh st.store env.now 0 env.debounce_jitter }
      network_called := false }
  else fetch_classify env st

/-! ## Token refresh (`_refresh_token`) -/

/-- The persisted config-entry data the auth code reads and rewrites. -/
structure EntryData where
  email : String := ""
  serial_number : String := ""
  id_token : Option String := none
  refresh_token : Option String := none
  auth_token : Option String := none
  user_id : Option String := none
  expires_at : ℚ := 0
deriving Repr

/-- Response of `POST /users/v1/refresh` (fields already extracted as the
source extracts them with `.get`; absent fields are `none`). -/
structure AuthResponse where
  status : Nat
  IdToken : Option String := none
  RefreshToken : Option String := none
  authentication_token : Option String := none
  user_id : Option String := none
  ExpiresIn : Option ℚ := none

/-- Python truthiness of an optional string (`if not id_token:` …). -/
def opt_truthy (o : Option String) : Bool :=
  match o with
  | some s => !s.isEmpty
  | none => false

/-- Source `_refresh_token(hass, entry, session)`: returns whether the refresh
succeeded and the entry data it persists.  On non-200 or a missing
`userPoolOAuth.IdToken` the entry data is untouched; otherwise
`id_token`, `auth_token`, `user_id`, `expires_at` are overwritten from
the response and `refresh_token` only when the response carries a truthy
`RefreshToken`. -/
def refresh_token_call (ed : EntryData) (resp : AuthResponse) (now : ℚ) :
    Bool × EntryData :=
  if resp.status ≠ 200 then (false, ed)
  else if !opt_truthy resp.IdToken then (false, ed)
  else
    let ed2 := { ed with
      id_token := resp.IdToken
      auth_token := resp.authentication_token
      user_id := resp.user_id
      expires_at := now + resp.ExpiresIn.getD 3600 - 60 }
    (true,
      if opt_truthy resp.RefreshToken then
        { ed2 with refresh_token := resp.RefreshToken }
      else ed2)

/-! ## Optimistic cache patches (`_set_nested_value` and friends) -/

/-- Source `_set_nested_value(target, keys, value)`: walk `setdefault(key, {})`
through all keys but the last, then assign the last key.  `none` models
the `TypeError`/`IndexError` Python raises when an intermediate node
holds a non-dict value or no key is given. -/
def set_nested_value : JVal → List String → JVal → Option JVal
  | .obj fs, [k], value => some (.obj (assocSet fs k value))
  | .obj fs, k :: rest, value =>
      let child := (assocGet fs k).getD (.obj [])
      match set_nested_value child rest value with
      | some c2 => some (.obj (assocSet fs k c2))
      | none => none
  | _, _, _ => none

/-- Source `_build_nested_dict(keys, value)`: wrap `value` in one singleton dict
per key, innermost last. -/
def build_nested_dict (keys : List String) (value : JVal) : JVal :=
  keys.foldr (fun k acc => .obj [(k, acc)]) value

/-- Source `_apply_desired_update(coordinator, keys, value)`: patch
`coordinator.data or {}` in place at `keys` and push it back. -/
def apply_desired_update (cdata : Option JVal) (keys : List String)
    (value : JVal) : Option JVal :=
  set_nested_value (dataOrEmpty cdata) keys value

/-- Source `_apply_heating_update(coordinator, key, value)`:
`data.setdefault("heating", {})[key] = value`. -/
def apply_heating_update (cdata : Option JVal) (key : String) (value : JVal) :
    Option JVal :=
  match dataOrEmpty cdata with
  | .obj fs =>
      match (assocGet fs ("heating")).getD (.obj []) with
      | .obj hs =>
          some (.obj (assocSet fs ("heating") (.obj (assocSet hs key value))))
      | _ => none
  | _ => none

/-- Source `_apply_schedule_update(coordinator, schedule_key, patch)`:
`data.setdefault("schedules", {}).setdefault(schedule_key, {}).update(patch)`. -/
def apply_schedule_update (cdata : Option JVal) (schedule_key : String)
    (patch : List (String × JVal)) : Option JVal :=
  match dataOrEmpty cdata with
  | .obj fs =>
      match (assocGet fs ("schedules")).getD (.obj []) with
      | .obj ss =>
          match (assocGet ss schedule_key).getD (.obj []) with
          | .obj sch =>
              let sch2 := patch.foldl (fun acc kv => assocSet acc kv.1 kv.2) sch
              some (.obj (assocSet fs ("schedules")
                (.obj (assocSet ss schedule_key (.obj sch2)))))
          | _ => none
      | _ => none
  | _ => none

/-- Character-level model of Python's `setting.split(".")`: split on every
separator occurrence, keeping empty segments, one segment even for the
empty string. -/
def py_split_chars (sep : Char) : List Char → List (List Char)
  | [] => [[]]
  | c :: rest =>
      if c = sep then [] :: py_split_chars sep rest
      else
        match py_split_chars sep rest with
        | [] => [[c]]
        | g :: gs => (c :: g) :: gs

/-- Source `s.split(sep)` for a one-character separator. -/
def py_split (s : String) (sep : Char) : List String :=
  (py_split_chars sep s.toList).map (fun cs => String.mk cs)

/-! ## Write entry points (`set_pool_value`, `set_heating_value`,
`update_schedule`) -/

/-- The state a write entry point touches: cached coordinator data,
whether a coordinator exists at all, the entry store, and the write
manager's queue. -/
structure WriteCallState where
  cdata : Option JVal := none
  has_coordinator : Bool := true
  store : EntryStore := {}
  wm : WMState := {}

/-- What one write entry point call did: the possibly-updated state, the
item handed to `_WriteManager.enqueue` (if any), and the exception it
raised (if any). -/
structure WriteCallResult where
  state : WriteCallState
  enqueued : Option WriteItem := none
  raised : Option String := none

/-- Source `if not id_token:` on `entry.data.get("id_token")`. -/
def token_falsy (id_token : Option String) : Bool :=
  match id_token with
  | some s => s.isEmpty
  | none => true

/-- Source `set_pool_value(hass, entry, setting, value, delay_refresh)` up to the
point the write item is enqueued (awaiting the future happens later, in
the worker).  A falsy `id_token` logs and returns with nothing changed. -/
def set_pool_value (id_token : Option String) (setting : String)
    (value : JVal) (delay_refresh : Bool) (future_id : Nat)
    (st : WriteCallState) (now : ℚ) : WriteCallResult :=
  if token_falsy id_token then { state := st }
  else
    let keys := py_split setting '.'
    let nested_value := build_nested_dict keys value
    let item : WriteItem :=
      { kind := "pool"
        key := "pool:" ++ setting
        target := setting
        payload := nested_value
        futures := [future_id]
        extra_delay := if delay_refresh then 10 else 0 }
    if st.has_coordinator then
      match apply_desired_update st.cdata (["equipment", "swc_0"] ++ keys) value with
      | none => { state := st, raised := some ("TypeError") }
      | some d2 =>
          let r := st.wm.enqueue st.store now item
          { state := { st with cdata := some d2, wm := r.1, store := r.2 }
            enqueued := some item }
    else
      let r := st.wm.enqueue st.store now item
      { state := { st with wm := r.1, store := r.2 }, enqueued := some item }

/-- Source `set_heating_value(hass, entry, key, value, delay_refresh)` up to the
enqueue, like `set_pool_value`. -/
def set_heating_value (id_token : Option String) (key : String)
    (value : JVal) (delay_refresh : Bool) (future_id : Nat)
    (st : WriteCallState) (now : ℚ) : WriteCallResult :=
  if token_falsy id_token then { state := st }
  else
    let item : WriteItem :=
      { kind := "heating"
        key := "heating:" ++ key
        target := key
        payload := value
        futures := [future_id]
        extra_delay := if delay_refresh then 10 else 0 }
    if st.has_coordinator then
      match apply_heating_update st.cdata key value with
      | none => { state := st, raised := some ("TypeError") }
      | some d2 =>
          let r := st.wm.enqueue st.store now item
          { state := { st with cdata := some d2, wm := r.1, store := r.2 }
            enqueued := some item }
    else
      let r := st.wm.enqueue st.store now item
      { state := { st with wm := r.1, store := r.2 }, enqueued := some item }

/-- Source `update_schedule(hass, entry, schedule_key, start=…, end=…, rpm=…)` up
to the enqueue.  A falsy `id_token` raises `Exception("Unauthenticated")`;
an empty patch returns silently. -/
def update_schedule (id_token : Option String) (schedule_key : String)
    (start endT : Option String) (rpm : Option Int) (future_id : Nat)
    (st : WriteCallState) (now : ℚ) : WriteCallResult :=
  if token_falsy id_token then
    { state := st, raised := some ("Unauthenticated") }
  else
    let timer : List (String × JVal) :=
      (match start with | some s => [("start", .str s)] | none => []) ++
      (match endT with | some e => [("end", .str e)] | none => [])
    let sched_patch : List (String × JVal) :=
      (if start.isSome || endT.isSome then [("timer", .obj timer)] else []) ++
      (match rpm with | some r => [("rpm", .num r)] | none => [])
    if sched_patch.isEmpty then { state := st }
    else
      let item : WriteItem :=
        { kind := "schedule"
          key := "schedule:" ++ schedule_key
          target := schedule_key
          payload := .obj sched_patch
          futures := [future_id]
          merge_func := some merge_dict }
      if st.has_coordinator then
        match apply_schedule_update st.cdata schedule_key sched_patch with
        | none => { state := st, raised := some ("TypeError") }
        | some d2 =>
            let r := st.wm.enqueue st.store now item
            { state := { st with cdata := some d2, wm := r.1, store := r.2 }
              enqueued := some item }
      else
        let r := st.wm.enqueue st.store now item
        { state := { st with wm := r.1, store := r.2 }, enqueued := some item }

/-! ## Reachable coordination states (for the `write_in_flight` invariant) -/

/-- The store mutations the coordination engine performs, labelled by the
source line that performs them. -/
inductive CoordOp where
  /-- worker: `store["write_in_flight"] = store.get("write_in_flight", 0) + 1` -/
  | incr_write
  /-- worker `finally`: `store["write_in_flight"] = max(0, … - 1)` -/
  | decr_write
  /-- `_set_cooldown` -/
  | cooldown (now seconds : ℚ)
  /-- `_schedule_debounced_refresh` deadline update -/
  | debounce (now delay jitter : ℚ)
  /-- `enqueue`: `store["no_read_until"] = now + NO_READ_WINDOW_SECONDS` -/
  | no_read (now : ℚ)
  /-- worker success: `store["write_quiet_until"] = now + POST_WRITE_COOLDOWN_SECONDS` -/
  | write_quiet (now : ℚ)
  /-- fetch success: `store["last_success_fetch_ts"] = now` -/
  | fetch_ok (now : ℚ)

def coord_apply (s : EntryStore) : CoordOp → EntryStore
  | .incr_write => { s with write_in_flight := s.write_in_flight + 1 }
  | .decr_write => { s with write_in_flight := max 0 (s.write_in_flight - 1) }
  | .cooldown now secs => set_cooldown s now secs
  | .debounce now delay jitter => schedule_debounced_refresh s now delay jitter
  | .no_read now =>
      { s with no_read_until := some (now + NO_READ_WINDOW_SECONDS) }
  | .write_quiet now =>
      { s with write_quiet_until := now + POST_WRITE_COOLDOWN_SECONDS }
  | .fetch_ok now => { s with last_success_fetch_ts := some now }

/-- Run a sequence of coordination mutations from the fresh store an
entry starts with. -/
def coord_run (ops : List CoordOp) : EntryStore :=
  ops.foldl coord_apply {}

/-! ## Derived accessors over the embedding -/

/-- The disjunction of the three deferral guards at the top of
`async_update_data` (the same three checks `_should_defer_refresh`
performs). -/
def should_defer (st : FetchState) (env : FetchEnv) : Bool :=
  no_read_active st.store env.now || is_write_active st.store env.now
    || decide (cooldown_remaining st.store env.now > 0)

/-- The `delay` argument the deferral branch taken by `async_update_data`
passes to `_schedule_debounced_refresh`: `0.0` for the no-read and
cooldown guards, the random read-deferral jitter for the write-active
guard. -/
def update_defer_delay (st : FetchState) (env : FetchEnv) : ℚ :=
  if no_read_active st.store env.now then 0
  else if is_write_active st.store env.now then env.defer_jitter
  else 0

/-- Payload combination performed by `enqueue` for a key collision:
`existing.merge_func` applied when set, else the new payload replaces. -/
def mergeApply (f : Option (JVal → JVal → JVal)) (base update : JVal) : JVal :=
  match f with
  | some g => g base update
  | none => update

/-- The single outcome a worker iteration delivers to all futures of the
dequeued item. -/
def worker_outcome : Except String Unit → FutureRes
  | .ok _ => .success
  | .error e => .failure e

/-! ## Helper lemmas -/

theorem schedule_debounced_refresh_isSome (s : EntryStore) (now delay jitter : ℚ) :
    (schedule_debounced_refresh s now delay jitter).refresh_deadline.isSome = true := by
  unfold schedule_debounced_refresh
  cases h : s.refresh_deadline with
  | none => rfl
  | some d =>
      dsimp only
      split
      · simp [h]
      · rfl

theorem schedule_debounced_refresh_write_in_flight (s : EntryStore)
    (now delay jitter : ℚ) :
    (schedule_debounced_refresh s now delay jitter).write_in_flight
      = s.write_in_flight := by
  unfold schedule_debounced_refresh
  cases s.refresh_deadline with
  | none => rfl
  | some d =>
      dsimp only
      split <;> rfl

theorem coord_apply_write_in_flight_nonneg (s : EntryStore) (op : CoordOp)
    (h : 0 ≤ s.write_in_flight) : 0 ≤ (coord_apply s op).write_in_flight := by
  cases op with
  | incr_write => simpa [coord_apply] using le_trans h (by omega)
  | decr_write => simp [coord_apply]
  | cooldown now secs => simpa [coord_apply, set_cooldown] using h
  | debounce now delay jitter =>
      simpa [coord_apply, schedule_debounced_refresh_write_in_flight] using h
  | no_read now => simpa [coord_apply] using h
  | write_quiet now => simpa [coord_apply] using h
  | fetch_ok now => simpa [coord_apply] using h

/-! ## Claims -/

/-- C3: for every pair of calls `set_cooldown(s1)` then `set_cooldown(s2)`
(at times `n1`, `n2`), the resulting `cooldown_until` is the maximum of
the original value and both implied deadlines `n1+s1`, `n2+s2`; in
particular the second call never shortens it, so `cooldown_until` is
monotonically non-decreasing across any sequence of `set_cooldown`
calls. -/
theorem set_cooldown_twice_monotone (s : EntryStore) (n1 s1 n2 s2 : ℚ) :
    (set_cooldown (set_cooldown s n1 s1) n2 s2).cooldown_until
      = max s.cooldown_until (max (n1 + s1) (n2 + s2)) ∧
    (set_cooldown s n1 s1).cooldown_until
      ≤ (set_cooldown (set_cooldown s n1 s1) n2 s2).cooldown_until := by
  constructor
  · simp [set_cooldown, max_assoc]
  · simp [set_cooldown]

/-- C9: `write_in_flight` is never negative in any coordination state
reachable from a fresh entry store through any sequence of the store
mutations the engine performs (worker increment, floored worker
decrement, cooldown / debounce / no-read / quiet-window / fetch-stamp
updates). -/
theorem write_in_flight_nonneg (ops : List CoordOp) :
    0 ≤ (coord_run ops).write_in_flight := by
  suffices h : ∀ s : EntryStore, 0 ≤ s.write_in_flight →
      0 ≤ (ops.foldl coord_apply s).write_in_flight by
    exact h {} le_rfl
  induction ops with
  | nil => intro s hs; exact hs
  | cons op rest ih =>
      intro s hs
      exact ih _ (coord_apply_write_in_flight_nonneg s op hs)

/-- C8: a successful token refresh (status 200, truthy
`userPoolOAuth.IdToken`) overwrites `id_token`, `auth_token`, `user_id`
and `expires_at` from the response; `refresh_token` keeps its prior
value when the response carries no (truthy) `RefreshToken`, and is
replaced when it does. -/
theorem refresh_token_frame (ed : EntryData) (resp : AuthResponse) (now : ℚ)
    (hok : resp.status = 200) (hid : opt_truthy resp.IdToken = true) :
    (refresh_token_call ed resp now).1 = true ∧
    (refresh_token_call ed resp now).2.id_token = resp.IdToken ∧
    (refresh_token_call ed resp now).2.auth_token = resp.authentication_token ∧
    (refresh_token_call ed resp now).2.user_id = resp.user_id ∧
    (refresh_token_call ed resp now).2.expires_at
      = now + resp.ExpiresIn.getD 3600 - 60 ∧
    (opt_truthy resp.RefreshToken = false →
      (refresh_token_call ed resp now).2.refresh_token = ed.refresh_token) ∧
    (opt_truthy resp.RefreshToken = true →
      (refresh_token_call ed resp now).2.refresh_token = resp.RefreshToken) := by
  by_cases hrt : opt_truthy resp.RefreshToken <;>
    simp [refresh_token_call, hok, hid, hrt]

/-- C8 witness: a concrete 200 refresh response without a `RefreshToken`
keeps the stored refresh token while updating the other fields. -/
theorem refresh_token_frame_witness :
    (refresh_token_call
        { email := "a@b", refresh_token := some ("rt-old"), id_token := some ("old") }
        { status := 200, IdToken := some ("new-id"),
          authentication_token := some ("auth2"), user_id := some ("u1"),
          ExpiresIn := some 7200 } 1000).2.refresh_token = some ("rt-old") :=
  ((refresh_token_frame
      { email := "a@b", refresh_token := some ("rt-old"), id_token := some ("old") }
      { status := 200, IdToken := some ("new-id"),
        authentication_token := some ("auth2"), user_id := some ("u1"),
        ExpiresIn := some 7200 } 1000 rfl rfl).2.2.2.2.2.1) rfl

/-- C10: with no (truthy) `id_token` in the entry data, `set_pool_value`
and `set_heating_value` return silently — no write item enqueued, no
optimistic patch, store (including `no_read_until`) untouched, nothing
raised — while `update_schedule` raises `Unauthenticated` in the same
situation. -/
theorem writes_dropped_without_token (id_token : Option String)
    (h : token_falsy id_token = true)
    (setting hkey sched : String) (value : JVal) (delay : Bool) (fid : Nat)
    (start endT : Option String) (rpm : Option Int)
    (st : WriteCallState) (now : ℚ) :
    set_pool_value id_token setting value delay fid st now
      = { state := st, enqueued := none, raised := none } ∧
    set_heating_value id_token hkey value delay fid st now
      = { state := st, enqueued := none, raised := none } ∧
    update_schedule id_token sched start endT rpm fid st now
      = { state := st, enqueued := none, raised := some ("Unauthenticated") } := by
  refine ⟨?_, ?_, ?_⟩ <;>
    simp [set_pool_value, set_heating_value, update_schedule, h]

/-- C10 witness: concrete calls with `id_token` absent. -/
theorem writes_dropped_without_token_witness :
    set_pool_value none ("orp_sp") (.num 700) false 0 {} 5
      = { state := {}, enqueued := none, raised := none } ∧
    set_heating_value none ("sp") (.num 700) false 0 {} 5
      = { state := {}, enqueued := none, raised := none } ∧
    update_schedule none ("sch_1") (some ("08:00")) none none 0 {} 5
      = { state := {}, enqueued := none, raised := some ("Unauthenticated") } :=
  writes_dropped_without_token none rfl ("orp_sp") ("sp") ("sch_1") (.num 700)
    false 0 (some ("08:00")) none none {} 5

/-- C6: the debounced-refresh scheduler computes
`target = max(now + delay, cooldown_until) + jitter` (the `target ≤ now`
clamp never fires for a positive jitter); a call finding an existing
(truthy) deadline at or past the target is a no-op, keeping the existing
deadline and its task; otherwise the existing task is cancelled and the
single scheduled deadline becomes `target`. -/
theorem debounce_keeps_later_deadline (s : EntryStore) (now delay jitter : ℚ)
    (hdelay : 0 ≤ delay) (hjit : 0 < jitter) :
    debounce_target s now delay jitter
      = max (now + delay) s.cooldown_until + jitter ∧
    (∀ d, s.refresh_deadline = some d → d ≠ 0 →
      debounce_target s now delay jitter ≤ d →
      schedule_debounced_refresh s now delay jitter = s) ∧
    (∀ d, s.refresh_deadline = some d → d ≠ 0 →
      d < debounce_target s now delay jitter →
      schedule_debounced_refresh s now delay jitter
        = { s with
            refresh_deadline := some (debounce_target s now delay jitter) }) ∧
    (s.refresh_deadline = none →
      schedule_debounced_refresh s now delay jitter
        = { s with
            refresh_deadline := some (debounce_target s now delay jitter) }) := by
  have htarget : debounce_target s now delay jitter
      = max (now + delay) s.cooldown_until + jitter := by
    unfold debounce_target
    rw [if_neg]
    push_neg
    have h1 : now + delay ≤ max (now + delay) s.cooldown_until := le_max_left _ _
    linarith
  refine ⟨htarget, ?_, ?_, ?_⟩
  · intro d hd hd0 hle
    unfold schedule_debounced_refresh
    rw [hd]
    dsimp only
    rw [if_pos]
    simp [hd0, ge_iff_le, hle]
  · intro d hd hd0 hlt
    unfold schedule_debounced_refresh
    rw [hd]
    dsimp only
    rw [if_neg]
    simp [hd0, ge_iff_le, not_le.mpr hlt]
  · intro hnone
    unfold schedule_debounced_refresh
    rw [hnone]

/-- C6 witness: an existing deadline of 200 beats a newly requested
target of 130 (now 100, delay 0, jitter 30); the shorter request is
dropped. -/
theorem debounce_keeps_later_deadline_witness :
    schedule_debounced_refresh { refresh_deadline := some 200 } 100 0 30
      = { refresh_deadline := some 200 } :=
  (debounce_keeps_later_deadline { refresh_deadline := some 200 } 100 0 30
      le_rfl (by norm_num)).2.1 200 rfl (by norm_num)
    (by norm_num [debounce_target])

theorem async_update_data_not_deferred (env : FetchEnv) (st : FetchState)
    (hnd : no_read_active st.store env.now = false)
    (hwa : is_write_active st.store env.now = false)
    (hcd : cooldown_remaining st.store env.now = 0) :
    async_update_data env st = fetch_classify env st := by
  unfold async_update_data
  simp [hnd, hwa, hcd]

theorem dataOrEmpty_of_not_truthy (cdata : Option JVal)
    (h : cdata_truthy cdata = false) : dataOrEmpty cdata = JVal.obj [] := by
  cases cdata with
  | none => rfl
  | some d =>
      have h2 : d.truthy = false := by simpa [cdata_truthy] using h
      simp [dataOrEmpty, h2]

/-- C1 counterexample: a 429 on a fresh entry (no cached snapshot, fresh
store) makes the fetch return the empty mapping — it does not raise. -/
theorem rate_limited_first_run_counterexample :
    (async_update_data { now := 100, resp := { status := 429 } }
        { store := {} }).outcome = FetchOutcome.ret (JVal.obj []) := by
  norm_num [async_update_data, fetch_classify, no_read_active, is_write_active,
    cooldown_remaining, cdata_truthy, dataOrEmpty, set_cooldown]

/-- C1 (amended): given a 429 and no (truthy) cached snapshot, the fetch
returns the empty mapping silently — no `UpdateFailed` is raised — after
setting the retry interval `max(60, min(configured, REFRESH_MAX))` and a
matching cooldown. -/
theorem rate_limited_first_run_returns_empty (env : FetchEnv) (st : FetchState)
    (hnd : no_read_active st.store env.now = false)
    (hwa : is_write_active st.store env.now = false)
    (hcd : cooldown_remaining st.store env.now = 0)
    (hrl : env.resp.status = 429)
    (hempty : cdata_truthy st.cdata = false) :
    (async_update_data env st).outcome = FetchOutcome.ret (JVal.obj []) ∧
    (∀ msg, (async_update_data env st).outcome
      ≠ FetchOutcome.raiseUpdateFailed msg) ∧
    (async_update_data env st).state.update_interval
      = max 60 (min st.configured REFRESH_MAX) ∧
    (async_update_data env st).state.store.cooldown_until
      = max st.store.cooldown_until
          (env.now + ((max 60 (min st.configured REFRESH_MAX) : Int) : ℚ)) := by
  rw [async_update_data_not_deferred env st hnd hwa hcd]
  have hne : env.resp.status ≠ 200 := by rw [hrl]; norm_num
  have h429 : (env.resp.status == 429 || env.resp.bodyTooMany) = true := by
    rw [hrl]; simp
  have hdo := dataOrEmpty_of_not_truthy st.cdata hempty
  unfold fetch_classify
  simp only [hne, not_false_eq_true, if_true, ite_not, if_neg hne, h429,
    if_true, hempty, Bool.false_eq_true, if_false, hdo]
  by_cases hr : max 60 (min st.configured REFRESH_MAX) = st.update_interval <;>
    simp [hr, set_cooldown, max_assoc]

/-- C1 (amended) witness: the concrete first-run 429 keeps the retry
interval at the configured default and returns the empty mapping. -/
theorem rate_limited_first_run_returns_empty_witness :
    (async_update_data { now := 100, resp := { status := 429 } }
        { store := {} }).outcome = FetchOutcome.ret (JVal.obj []) ∧
    (async_update_data { now := 100, resp := { status := 429 } }
        { store := {} }).state.update_interval
      = max 60 (min REFRESH_DEFAULT REFRESH_MAX) :=
  ⟨(rate_limited_first_run_returns_empty { now := 100, resp := { status := 429 } }
      { store := {} } rfl rfl (by norm_num [cooldown_remaining]) rfl rfl).1,
   (rate_limited_first_run_returns_empty { now := 100, resp := { status := 429 } }
      { store := {} } rfl rfl (by norm_num [cooldown_remaining]) rfl rfl).2.2.1⟩

/-- C4: a 429 while a (truthy) cached snapshot exists returns exactly the
cached snapshot — never an `UpdateFailed` —, doubles the poll interval
capped at `REFRESH_MAX`, and sets a cooldown matching the new interval. -/
theorem rate_limited_with_cache_backoff (env : FetchEnv) (st : FetchState)
    (d : JVal)
    (hnd : no_read_active st.store env.now = false)
    (hwa : is_write_active st.store env.now = false)
    (hcd : cooldown_remaining st.store env.now = 0)
    (hrl : env.resp.status = 429)
    (hdata : st.cdata = some d) (htr : d.truthy = true)
    (hpos : 0 < st.update_interval) (hmax : st.update_interval ≤ REFRESH_MAX) :
    (async_update_data env st).outcome = FetchOutcome.ret d ∧
    (∀ msg, (async_update_data env st).outcome
      ≠ FetchOutcome.raiseUpdateFailed msg) ∧
    (async_update_data env st).state.update_interval
      = min (st.update_interval * 2) REFRESH_MAX ∧
    (async_update_data env st).state.store.cooldown_until
      = env.now + ((min (st.update_interval * 2) REFRESH_MAX : Int) : ℚ) := by
  rw [async_update_data_not_deferred env st hnd hwa hcd]
  have hne : env.resp.status ≠ 200 := by rw [hrl]; norm_num
  have h429 : (env.resp.status == 429 || env.resp.bodyTooMany) = true := by
    rw [hrl]; simp
  have htru : cdata_truthy st.cdata = true := by simp [cdata_truthy, hdata, htr]
  have hdo : dataOrEmpty st.cdata = d := by simp [dataOrEmpty, hdata, htr]
  have hnew : max st.update_interval (min (st.update_interval * 2) REFRESH_MAX)
      = min (st.update_interval * 2) REFRESH_MAX :=
    max_eq_right (le_min (by omega) hmax)
  have hcle : st.store.cooldown_until ≤ env.now := by
    have h := hcd
    unfold cooldown_remaining at h
    have := max_eq_left_iff.mp h
    linarith
  have hposn : (0 : Int) < min (st.update_interval * 2) REFRESH_MAX := by
    have hM : (0 : Int) < REFRESH_MAX := by norm_num [REFRESH_MAX]
    exact lt_min (by omega) hM
  have hposq : (0 : ℚ) < ((min (st.update_interval * 2) REFRESH_MAX : Int) : ℚ) := by
    exact_mod_cast hposn
  have hcool : max st.store.cooldown_until
      (env.now + ((min (st.update_interval * 2) REFRESH_MAX : Int) : ℚ))
      = env.now + ((min (st.update_interval * 2) REFRESH_MAX : Int) : ℚ) :=
    max_eq_right (by linarith)
  unfold fetch_classify
  simp only [hne, not_false_eq_true, ite_not, if_neg hne, h429, if_true, htru,
    hdo, hnew, ite_true, if_false]
  by_cases he : min (st.update_interval * 2) REFRESH_MAX = st.update_interval
  · rw [if_pos he]
    refine ⟨trivial, fun msg h => FetchOutcome.noConfusion h, he.symm, ?_⟩
    rw [he] at hcool ⊢
    dsimp only
    simpa [set_cooldown] using hcool
  · rw [if_neg he]
    refine ⟨trivial, fun msg h => FetchOutcome.noConfusion h, rfl, ?_⟩
    dsimp only
    simp only [set_cooldown, max_assoc, max_self]
    exact hcool

/-- C4 witness: a concrete 429 with a cached snapshot at the default
interval doubles the interval and returns the cached object. -/
theorem rate_limited_with_cache_backoff_witness :
    (async_update_data { now := 100, resp := { status := 429 } }
        { store := {}, cdata := some (.obj [("x", .num 1)]) }).outcome
      = FetchOutcome.ret (.obj [("x", .num 1)]) ∧
    (async_update_data { now := 100, resp := { status := 429 } }
        { store := {}, cdata := some (.obj [("x", .num 1)]) }).state.update_interval
      = min (REFRESH_DEFAULT * 2) REFRESH_MAX :=
  ⟨(rate_limited_with_cache_backoff { now := 100, resp := { status := 429 } }
      { store := {}, cdata := some (.obj [("x", .num 1)]) } (.obj [("x", .num 1)])
      rfl rfl (by norm_num [cooldown_remaining]) rfl rfl rfl
      (by norm_num [REFRESH_DEFAULT]) (by norm_num [REFRESH_DEFAULT, REFRESH_MAX])).1,
   (rate_limited_with_cache_backoff { now := 100, resp := { status := 429 } }
      { store := {}, cdata := some (.obj [("x", .num 1)]) } (.obj [("x", .num 1)])
      rfl rfl (by norm_num [cooldown_remaining]) rfl rfl rfl
      (by norm_num [REFRESH_DEFAULT]) (by norm_num [REFRESH_DEFAULT, REFRESH_MAX])).2.2.1⟩

theorem schedule_debounced_refresh_noop (s : EntryStore) (now delay jitter : ℚ)
    (dl : ℚ) (hdl : s.refresh_deadline = some dl) (h0 : dl ≠ 0)
    (hge : debounce_target s now delay jitter ≤ dl) :
    schedule_debounced_refresh s now delay jitter = s := by
  unfold schedule_debounced_refresh
  rw [hdl]
  dsimp only
  rw [if_pos]
  simp [h0, ge_iff_le, hge]

/-- C5: while `no_read_until` has not passed, or a write is active
(`write_in_flight > 0` or inside the quiet window), or a cooldown is
active, the fetch makes no network call, returns the cached snapshot
unchanged (the cached object itself whenever a truthy cache exists),
leaves the cache untouched, and performs exactly one debounced-refresh
scheduling — with delay 0, or the random read-deferral jitter when
deferred by write activity — leaving exactly one scheduled deadline;
a deadline already scheduled at or past the branch's target is kept
unchanged rather than rescheduled. -/
theorem deferred_fetch_serves_cache (env : FetchEnv) (st : FetchState)
    (h : should_defer st env = true) :
    (async_update_data env st).network_called = false ∧
    (async_update_data env st).outcome
      = FetchOutcome.ret (dataOrEmpty st.cdata) ∧
    (∀ d, st.cdata = some d → d.truthy = true →
      (async_update_data env st).outcome = FetchOutcome.ret d) ∧
    (async_update_data env st).state.cdata = st.cdata ∧
    (async_update_data env st).state.store
      = schedule_debounced_refresh st.store env.now (update_defer_delay st env)
          env.debounce_jitter ∧
    (async_update_data env st).state.store.refresh_deadline.isSome = true ∧
    (∀ dl, st.store.refresh_deadline = some dl → dl ≠ 0 →
      debounce_target st.store env.now (update_defer_delay st env)
          env.debounce_jitter ≤ dl →
      (async_update_data env st).state.store.refresh_deadline = some dl) := by
  have hred : async_update_data env st =
      { outcome := .ret (dataOrEmpty st.cdata)
        state := { st with
          store := schedule_debounced_refresh st.store env.now
            (update_defer_delay st env) env.debounce_jitter }
        network_called := false } := by
    by_cases h1 : no_read_active st.store env.now
    · simp [async_update_data, h1, update_defer_delay]
    · by_cases h2 : is_write_active st.store env.now
      · simp [async_update_data, h1, h2, update_defer_delay]
      · have h3 : cooldown_remaining st.store env.now > 0 := by
          simpa [should_defer, h1, h2] using h
        simp [async_update_data, h1, h2, h3, update_defer_delay]
  refine ⟨by rw [hred], by rw [hred], ?_, by rw [hred], by rw [hred],
    by rw [hred]; exact schedule_debounced_refresh_isSome _ _ _ _, ?_⟩
  · intro d hd htr
    rw [hred]
    simp [dataOrEmpty, hd, htr]
  · intro dl hdl h0 hge
    rw [hred]
    dsimp only
    rw [schedule_debounced_refresh_noop st.store env.now _ env.debounce_jitter
      dl hdl h0 hge]
    exact hdl

/-- C5 witness: a fetch arriving while one write is in flight returns the
cached object without network I/O and keeps the already-scheduled
further-out deadline. -/
theorem deferred_fetch_serves_cache_witness :
    (async_update_data
        { now := 100, defer_jitter := 20, debounce_jitter := 40,
          resp := { status := 200 } }
        { store := { write_in_flight := 1, refresh_deadline := some 500 },
          cdata := some (.obj [("x", .num 1)]) }).network_called = false ∧
    (async_update_data
        { now := 100, defer_jitter := 20, debounce_jitter := 40,
          resp := { status := 200 } }
        { store := { write_in_flight := 1, refresh_deadline := some 500 },
          cdata := some (.obj [("x", .num 1)]) }).outcome
      = FetchOutcome.ret (.obj [("x", .num 1)]) ∧
    (async_update_data
        { now := 100, defer_jitter := 20, debounce_jitter := 40,
          resp := { status := 200 } }
        { store := { write_in_flight := 1, refresh_deadline := some 500 },
          cdata := some (.obj [("x", .num 1)]) }).state.store.refresh_deadline
      = some 500 :=
  ⟨(deferred_fetch_serves_cache
      { now := 100, defer_jitter := 20, debounce_jitter := 40,
        resp := { status := 200 } }
      { store := { write_in_flight := 1, refresh_deadline := some 500 },
        cdata := some (.obj [("x", .num 1)]) } (by decide)).1,
   (deferred_fetch_serves_cache
      { now := 100, defer_jitter := 20, debounce_jitter := 40,
        resp := { status := 200 } }
      { store := { write_in_flight := 1, refresh_deadline := some 500 },
        cdata := some (.obj [("x", .num 1)]) } (by decide)).2.2.1
      (.obj [("x", .num 1)]) rfl rfl,
   (deferred_fetch_serves_cache
      { now := 100, defer_jitter := 20, debounce_jitter := 40,
        resp := { status := 200 } }
      { store := { write_in_flight := 1, refresh_deadline := some 500 },
        cdata := some (.obj [("x", .num 1)]) } (by decide)).2.2.2.2.2.2
      500 rfl (by norm_num)
      (by norm_num [debounce_target, update_defer_delay, no_read_active,
        is_write_active])⟩

theorem assocGet_assocSet (fs : List (String × JVal)) (k : String) (v : JVal) :
    assocGet (assocSet fs k v) k = some v := by
  induction fs with
  | nil => simp [assocSet, assocGet]
  | cons p rest ih =>
      obtain ⟨k0, v0⟩ := p
      by_cases hk : k0 = k
      · simp [assocSet, assocGet, hk]
      · simp [assocSet, assocGet, hk, ih]

theorem getPath_set_nested_value (keys : List String) (t t2 v : JVal)
    (h : set_nested_value t keys v = some t2) :
    getPath t2 keys = some v := by
  induction keys generalizing t t2 with
  | nil => cases t <;> simp [set_nested_value] at h
  | cons k rest ih =>
      cases rest with
      | nil =>
          cases t with
          | obj fs =>
              simp only [set_nested_value, Option.some.injEq] at h
              subst h
              simp [getPath, assocGet_assocSet]
          | num n => simp [set_nested_value] at h
          | str s => simp [set_nested_value] at h
          | bool b => simp [set_nested_value] at h
      | cons k2 rest2 =>
          cases t with
          | obj fs =>
              simp only [set_nested_value] at h
              cases hc : set_nested_value ((assocGet fs k).getD (.obj []))
                  (k2 :: rest2) v with
              | none => rw [hc] at h; simp at h
              | some c2 =>
                  rw [hc] at h
                  simp only [Option.some.injEq] at h
                  subst h
                  simp only [getPath, assocGet_assocSet]
                  exact ih _ _ hc
          | num n => simp [set_nested_value] at h
          | str s => simp [set_nested_value] at h
          | bool b => simp [set_nested_value] at h

/-- C7: enqueuing the pool write `orp_sp = 700` immediately (before any
network I/O) patches the cached snapshot so that
`equipment.swc_0.orp_sp` reads 700; the enqueued item's network payload
nests the same value under `state.desired.equipment.swc_0.orp_sp` — the
same nesting a server response reports the field under — and a
subsequent successful fetch returns the server's `state.reported` object
wholesale, superseding the optimistic patch at that path. -/
theorem optimistic_orp_roundtrip (id_token : Option String)
    (htok : token_falsy id_token = false)
    (st : WriteCallState) (hco : st.has_coordinator = true)
    (now : ℚ) (fid : Nat) (d2 : JVal)
    (hpatch : apply_desired_update st.cdata ["equipment", "swc_0", "orp_sp"]
        (.num 700) = some d2) :
    (set_pool_value id_token ("orp_sp") (.num 700) false fid st now).state.cdata
      = some d2 ∧
    getPath d2 ["equipment", "swc_0", "orp_sp"] = some (.num 700) ∧
    (∃ item, (set_pool_value id_token ("orp_sp") (.num 700) false fid
        st now).enqueued = some item ∧
      execute_write_payload item = some (.obj [("state", .obj [("desired",
        .obj [("equipment", .obj [("swc_0",
          .obj [("orp_sp", .num 700)])])])])]) ∧
      getPath (.obj [("state", .obj [("desired", .obj [("equipment",
          .obj [("swc_0", .obj [("orp_sp", .num 700)])])])])])
        ["state", "desired", "equipment", "swc_0", "orp_sp"]
        = some (.num 700)) ∧
    (∀ env st2, no_read_active st2.store env.now = false →
      is_write_active st2.store env.now = false →
      cooldown_remaining st2.store env.now = 0 →
      env.resp.status = 200 →
      (async_update_data env st2).outcome
        = FetchOutcome.ret env.resp.reported) := by
  have hsplit : py_split ("orp_sp") '.' = ["orp_sp"] := by rfl
  refine ⟨?_, getPath_set_nested_value _ _ _ _ hpatch, ?_, ?_⟩
  · simp [set_pool_value, htok, hco, hsplit, hpatch]
  · refine ⟨{ kind := "pool"
              key := "pool:" ++ "orp_sp"
              target := "orp_sp"
              payload := build_nested_dict ["orp_sp"] (.num 700)
              futures := [fid]
              extra_delay := 0 }, ?_, rfl, rfl⟩
    simp [set_pool_value, htok, hco, hsplit, hpatch]
  · intro env st2 hnd hwa hcd h200
    rw [async_update_data_not_deferred env st2 hnd hwa hcd]
    simp [fetch_classify, h200]

/-- C7 witness: the concrete patch on a snapshot holding `orp_sp = 650`. -/
theorem optimistic_orp_roundtrip_witness :
    (set_pool_value (some ("tok")) ("orp_sp") (.num 700) false 0
        { cdata := some (.obj [("equipment", .obj [("swc_0",
            .obj [("orp_sp", .num 650)])])]) } 5).state.cdata
      = some (.obj [("equipment", .obj [("swc_0",
          .obj [("orp_sp", .num 700)])])]) ∧
    getPath (.obj [("equipment", .obj [("swc_0",
          .obj [("orp_sp", .num 700)])])])
        ["equipment", "swc_0", "orp_sp"] = some (.num 700) :=
  ⟨(optimistic_orp_roundtrip (some ("tok")) rfl
      { cdata := some (.obj [("equipment", .obj [("swc_0",
          .obj [("orp_sp", .num 650)])])]) } rfl 5 0
      (.obj [("equipment", .obj [("swc_0", .obj [("orp_sp", .num 700)])])])
      rfl).1,
   (optimistic_orp_roundtrip (some ("tok")) rfl
      { cdata := some (.obj [("equipment", .obj [("swc_0",
          .obj [("orp_sp", .num 650)])])]) } rfl 5 0
      (.obj [("equipment", .obj [("swc_0", .obj [("orp_sp", .num 700)])])])
      rfl).2.1⟩

theorem wmGet_wmSet (p : List (String × WriteItem)) (k : String) (v : WriteItem) :
    wmGet (wmSet p k v) k = some v := by
  induction p with
  | nil => simp [wmSet, wmGet]
  | cons q rest ih =>
      obtain ⟨k0, v0⟩ := q
      by_cases hk : k0 = k
      · simp [wmSet, wmGet, hk]
      · simp [wmSet, wmGet, hk, ih]

theorem countP_wmSet_mem (p : List (String × WriteItem)) (k : String)
    (v : WriteItem) (h : wmGet p k ≠ none) :
    (wmSet p k v).countP (fun q => q.1 == k)
      = p.countP (fun q => q.1 == k) := by
  induction p with
  | nil => simp [wmGet] at h
  | cons q rest ih =>
      obtain ⟨k0, v0⟩ := q
      by_cases hk : k0 = k
      · simp [wmSet, hk, List.countP_cons]
      · have h2 : wmGet rest k ≠ none := by simpa [wmGet, hk] using h
        simp [wmSet, hk, List.countP_cons, ih h2]

theorem countP_wmSet_new (p : List (String × WriteItem)) (k : String)
    (v : WriteItem) (h : wmGet p k = none) :
    (wmSet p k v).countP (fun q => q.1 == k)
      = p.countP (fun q => q.1 == k) + 1 := by
  induction p with
  | nil => simp [wmSet, List.countP_cons]
  | cons q rest ih =>
      obtain ⟨k0, v0⟩ := q
      by_cases hk : k0 = k
      · simp [wmGet, hk] at h
      · have h2 : wmGet rest k = none := by simpa [wmGet, hk] using h
        simp [wmSet, hk, List.countP_cons, ih h2]

theorem enqueueAll_merge_same_key (k : String) (items : List (ℚ × WriteItem))
    (hall : ∀ q ∈ items, q.2.key = k)
    (wm : WMState) (store : EntryStore) (acc : WriteItem)
    (hacc : wmGet wm.pending k = some acc) :
    wmGet (wm.enqueueAll store items).1.pending k = some
      { acc with
          payload := items.foldl
            (fun p q => mergeApply acc.merge_func p q.2.payload) acc.payload
          extra_delay := items.foldl
            (fun e q => max e q.2.extra_delay) acc.extra_delay
          futures := items.foldl
            (fun fs q => fs ++ q.2.futures) acc.futures } ∧
    (wm.enqueueAll store items).1.order = wm.order ∧
    (wm.enqueueAll store items).1.pending.countP (fun q => q.1 == k)
      = wm.pending.countP (fun q => q.1 == k) := by
  induction items generalizing wm store acc with
  | nil =>
      refine ⟨?_, rfl, rfl⟩
      simpa [WMState.enqueueAll] using hacc
  | cons q rest ih =>
      obtain ⟨t, item⟩ := q
      have hk : item.key = k := hall (t, item) (List.mem_cons_self _ _)
      have hallr : ∀ q ∈ rest, q.2.key = k := fun q hq =>
        hall q (List.mem_cons_of_mem _ hq)
      have hred : wm.enqueueAll store ((t, item) :: rest)
          = WMState.enqueueAll
              { pending := wmSet wm.pending k
                  { acc with
                      payload := mergeApply acc.merge_func acc.payload
                        item.payload
                      extra_delay := max acc.extra_delay item.extra_delay
                      futures := acc.futures ++ item.futures }
                order := wm.order }
              { store with
                  no_read_until := some (t + NO_READ_WINDOW_SECONDS) }
              rest := by
        conv_lhs => rw [WMState.enqueueAll]
        simp [WMState.enqueue, hk, hacc, mergeApply]
      obtain ⟨hg, ho, hc⟩ := ih hallr
        { pending := wmSet wm.pending k
            { acc with
                payload := mergeApply acc.merge_func acc.payload item.payload
                extra_delay := max acc.extra_delay item.extra_delay
                futures := acc.futures ++ item.futures }
          order := wm.order }
        { store with no_read_until := some (t + NO_READ_WINDOW_SECONDS) }
        { acc with
            payload := mergeApply acc.merge_func acc.payload item.payload
            extra_delay := max acc.extra_delay item.extra_delay
            futures := acc.futures ++ item.futures }
        (wmGet_wmSet _ _ _)
      refine ⟨?_, ?_, ?_⟩
      · rw [hred]
        simp only [List.foldl_cons]
        exact hg
      · rw [hred]
        exact ho
      · rw [hred, hc]
        exact countP_wmSet_mem _ _ _ (by simp [hacc])

/-- C2: for every sequence of writes enqueued under one coalescing key
before the worker dequeues it, the queue holds exactly one entry and one
order slot for that key; that entry carries the fully merged payload
(later payloads folded in through the first item's merge function, else
last-write-wins), the maximum of all extra-delays, and the concatenation
of every submitter's completion handles; and the single worker iteration
that executes it resolves each attached handle exactly once, all with
the same outcome (all success, or all the same error). -/
theorem write_coalescing (k : String) (t0 : ℚ) (first : WriteItem)
    (rest : List (ℚ × WriteItem))
    (hf : first.key = k) (hall : ∀ q ∈ rest, q.2.key = k)
    (wm : WMState) (store : EntryStore)
    (hnew : wmGet wm.pending k = none)
    (hcount : wm.pending.countP (fun q => q.1 == k) = 0)
    (horder : wm.order.count k = 0) :
    (wm.enqueueAll store ((t0, first) :: rest)).1.order.count k = 1 ∧
    (wm.enqueueAll store ((t0, first) :: rest)).1.pending.countP
      (fun q => q.1 == k) = 1 ∧
    wmGet (wm.enqueueAll store ((t0, first) :: rest)).1.pending k = some
      { first with
          payload := rest.foldl
            (fun p q => mergeApply first.merge_func p q.2.payload)
            first.payload
          extra_delay := rest.foldl
            (fun e q => max e q.2.extra_delay) first.extra_delay
          futures := rest.foldl
            (fun fs q => fs ++ q.2.futures) first.futures } ∧
    (∀ it : WriteItem, ∀ res : Except String Unit,
      (worker_resolve it res).map Prod.fst = it.futures ∧
      ∀ pr ∈ worker_resolve it res, pr.2 = worker_outcome res) := by
  have hred : wm.enqueueAll store ((t0, first) :: rest)
      = WMState.enqueueAll
          { pending := wmSet wm.pending k first, order := wm.order ++ [k] }
          { store with no_read_until := some (t0 + NO_READ_WINDOW_SECONDS) }
          rest := by
    conv_lhs => rw [WMState.enqueueAll]
    simp [WMState.enqueue, hf, hnew]
  obtain ⟨hg, ho, hc⟩ := enqueueAll_merge_same_key k rest hall
    { pending := wmSet wm.pending k first, order := wm.order ++ [k] }
    { store with no_read_until := some (t0 + NO_READ_WINDOW_SECONDS) }
    first (wmGet_wmSet _ _ _)
  refine ⟨?_, ?_, ?_, ?_⟩
  · rw [hred, ho]
    simp [List.count_append, horder]
  · rw [hred, hc]
    rw [countP_wmSet_new _ _ _ hnew, hcount]
  · rw [hred]
    exact hg
  · intro it res
    have hmap : ∀ (fr : FutureRes) (l : List Nat),
        List.map (Prod.fst ∘ fun f => (f, fr)) l = l := by
      intro fr l
      induction l with
      | nil => rfl
      | cons a l2 ih => simp [Function.comp, ih]
    cases res with
    | error e =>
        refine ⟨?_, ?_⟩
        · simp only [worker_resolve, List.map_map]
          exact hmap (FutureRes.failure e) it.futures
        · intro pr hpr
          simp only [worker_resolve] at hpr
          rcases List.mem_map.mp hpr with ⟨f, hf2, rfl⟩
          rfl
    | ok u =>
        refine ⟨?_, ?_⟩
        · simp only [worker_resolve, List.map_map]
          exact hmap FutureRes.success it.futures
        · intro pr hpr
          simp only [worker_resolve] at hpr
          rcases List.mem_map.mp hpr with ⟨f, hf2, rfl⟩
          rfl

/-- C2 witness: two pool writes to `orp_sp` (700 then 720, no merge
function) coalesce to a single pending entry carrying the last payload
and both futures, with one order slot. -/
theorem write_coalescing_witness :
    (WMState.enqueueAll {} {}
        [(0, { kind := "pool", key := "pool:orp_sp", target := "orp_sp",
               payload := .obj [("orp_sp", .num 700)], futures := [0] }),
         (1, { kind := "pool", key := "pool:orp_sp", target := "orp_sp",
               payload := .obj [("orp_sp", .num 720)], futures := [1] })]
      ).1.order.count ("pool:orp_sp") = 1 ∧
    wmGet (WMState.enqueueAll {} {}
        [(0, { kind := "pool", key := "pool:orp_sp", target := "orp_sp",
               payload := .obj [("orp_sp", .num 700)], futures := [0] }),
         (1, { kind := "pool", key := "pool:orp_sp", target := "orp_sp",
               payload := .obj [("orp_sp", .num 720)], futures := [1] })]
      ).1.pending ("pool:orp_sp")
      = some { kind := "pool", key := "pool:orp_sp", target := "orp_sp",
               payload := .obj [("orp_sp", .num 720)], futures := [0, 1] } := by
  have h := write_coalescing ("pool:orp_sp") 0
    { kind := "pool", key := "pool:orp_sp", target := "orp_sp",
      payload := .obj [("orp_sp", .num 700)], futures := [0] }
    [(1, { kind := "pool", key := "pool:orp_sp", target := "orp_sp",
           payload := .obj [("orp_sp", .num 720)], futures := [1] })]
    rfl (by intro q hq; rcases List.mem_singleton.mp hq with rfl; rfl)
    {} {} rfl rfl rfl
  refine ⟨h.1, ?_⟩
  rw [h.2.2.1]
  simp [mergeApply]
